import Mathlib

/-!
Verification of the read-through cache orchestrator and the Excel source
reader of the Playit tasks backend
(`src/core/services/tasks.py`, `src/core/services/excel.py`).

The external collaborators are modelled at their boundaries:

* the `json` codec: a cache cell either holds valid JSON denoting a value
  (`CacheCell.good v`, as produced by `json.dumps`) or bytes on which
  `json.loads` raises `JSONDecodeError` (`CacheCell.corrupt raw`);
* the Redis client: each of the three store calls a single
  `get_all_tasks` call can make (get / delete / set) may raise; a
  `RedisBehavior` record fixes the outcome of each for one call;
* pandas `read_excel`: returns the named sheet's dataframe when the sheet
  exists, and raises `ValueError` when the named sheet is absent from the
  workbook; `DataFrame.empty` is true when either axis has length 0;
  `to_json(orient="records")` followed by `json.loads` yields one object
  per row mapping column names to cell values.
-/

/-- A JSON value, as deserialized by Python's `json.loads`. -/
inductive JVal where
  | null
  | bool (b : Bool)
  | num (n : Int)
  | str (s : String)
  | arr (xs : List JVal)
  | obj (fields : List (String × JVal))

/-- Python truthiness of a deserialized JSON value: `None`, `False`, `0`,
`""`, `[]` and `{}` are falsy, everything else truthy. -/
def JVal.truthy : JVal → Bool
  | .null => false
  | .bool b => b
  | .num n => n != 0
  | .str s => !s.isEmpty
  | .arr xs => !xs.isEmpty
  | .obj fields => !fields.isEmpty

/-- The raw bytes stored at the cache key, abstracted at the json-codec
boundary: either valid JSON denoting a value, or bytes on which
`json.loads` raises `JSONDecodeError`. -/
inductive CacheCell where
  | good (v : JVal)
  | corrupt (raw : String)

/-- Python truthiness of the raw cached bytes (`if cached_data:`):
`json.dumps` output is never empty, so a `good` cell is always truthy;
corrupt bytes are truthy iff non-empty. -/
def CacheCell.nonEmpty : CacheCell → Bool
  | .good _ => true
  | .corrupt raw => !raw.isEmpty

/-- An exception escaping a service call: either a FastAPI `HTTPException`
with a status code and detail, or the `ValueError` pandas raises when the
requested sheet is absent. -/
inductive PyError where
  | http (statusCode : Nat) (detail : String)
  | pandasValueError (msg : String)

/-- The dataframe `read_excel` yields for a sheet: a column header and the
rows of cell values. -/
structure DataFrame where
  cols : List String
  rows : List (List JVal)

/-- pandas `DataFrame.empty`: true iff either axis has length 0. -/
def DataFrame.emptyDf (df : DataFrame) : Bool :=
  df.rows.isEmpty || df.cols.isEmpty

/-- `json.loads(df.to_json(orient="records"))`: one JSON object per row,
mapping column names to the row's cell values. -/
def DataFrame.records (df : DataFrame) : List JVal :=
  df.rows.map (fun r => JVal.obj (df.cols.zip r))

/-- The source workbook: its file path and the sheet named "Персонажи"
(`none` when no sheet of that name exists). -/
structure ExcelFile where
  path : String
  sheet : Option DataFrame

/-- Modelled from the spec: the Response Envelope schema
`ParseTasksResponse` (declared in `src/core/schemas/tasks.py`, which is
not among the provided sources): {status code, human-readable detail
string, payload}. Field names follow the call sites in
`tasks.py` / `excel.py`. -/
structure ParseTasksResponse where
  status : Nat
  details : String
  data : JVal

/-- Python `str.endswith`, modelled as a suffix test on the character
sequence of the string. -/
def pyEndsWith (s suf : String) : Bool :=
  List.isSuffixOf suf.data s.data

/-- The message of the `ValueError` pandas raises when the named sheet is
absent from the workbook. -/
def pandasSheetMissingMsg : String := "Worksheet named Персонажи not found"

namespace ExcelService

/-- `ExcelService.parse_shop` (`src/core/services/excel.py`, lines 8-49),
translated statement by statement. Note the extension check: the Python is
`file_path.endswith(".xlsx" or ".xls")`, and `".xlsx" or ".xls"` evaluates
to `".xlsx"`, so only the `.xlsx` suffix is tested. -/
def parse_shop (file : ExcelFile) : Except PyError ParseTasksResponse :=
  if !(pyEndsWith file.path ".xlsx") then
    .error (.http 422 "Unprocessable content")
  else
    match file.sheet with
    | none => .error (.pandasValueError pandasSheetMissingMsg)
    | some df =>
      if df.emptyDf then
        .error (.http 404 "Такой таблицы не существует")
      else
        let formatted := df.records
        if formatted.isEmpty then
          .error (.http 400 "Ошибка при форматировании данных из таблицы")
        else
          .ok { status := 200
                details := "Данные получены напрямую из Excel файла."
                data := .arr formatted }

end ExcelService

/-- The outcome of each Redis call a single `get_all_tasks` call can make:
whether `get`, `delete` and `set` raise. -/
structure RedisBehavior where
  getFails : Bool
  deleteFails : Bool
  setFails : Bool

/-- The state `get_all_tasks` reads and writes: the cache entry at the
fixed key `settings.redis.CACHE_KEY` (`none` = key absent) and the source
workbook. -/
structure SysState where
  cache : Option CacheCell
  file : ExcelFile

/-- What one `get_all_tasks` call produces: the returned envelope or the
escaping exception, the cache entry afterwards, and how many times
`ExcelService.parse_shop` was invoked during the call. -/
structure CallResult where
  result : Except PyError ParseTasksResponse
  cache : Option CacheCell
  parseShopCalls : Nat

namespace TaskService

/-- `TaskService._get_cached_data` (`tasks.py` lines 19-29): returns the
raw value at the cache key, or `None` when the key is absent or the Redis
`get` raises (the exception is logged and absorbed). -/
def get_cached_data (b : RedisBehavior) (cache : Option CacheCell) :
    Option CacheCell :=
  if b.getFails then none else cache

/-- `TaskService._parse_cached_data` (`tasks.py` lines 31-45):
`json.loads` the raw bytes; on `JSONDecodeError`, best-effort delete the
cache key (a delete failure is logged and absorbed) and return `None`.
Returns the parsed value (or `None`) together with the cache entry after
the call. -/
def parse_cached_data (b : RedisBehavior) (cache : Option CacheCell)
    (cell : CacheCell) : Option JVal × Option CacheCell :=
  match cell with
  | .good v => (some v, cache)
  | .corrupt _ => (none, if b.deleteFails then cache else none)

/-- `TaskService._cache_response` (`tasks.py` lines 47-56): serialize
`response.data` and `set` it at the cache key with the configured TTL; any
failure is logged and absorbed, leaving the cache entry unchanged. -/
def cache_response (b : RedisBehavior) (cache : Option CacheCell)
    (resp : ParseTasksResponse) : Option CacheCell :=
  if b.setFails then cache else some (.good resp.data)

/-- The fall-through tail of `get_all_tasks` (`tasks.py` lines 82-89):
invoke `ExcelService.parse_shop` (an exception propagates, leaving the
cache as it stood), then best-effort write-back, then return the parsed
response. -/
def sourceFallback (b : RedisBehavior) (cache : Option CacheCell)
    (file : ExcelFile) : CallResult :=
  match ExcelService.parse_shop file with
  | .error e => ⟨.error e, cache, 1⟩
  | .ok resp => ⟨.ok resp, cache_response b cache resp, 1⟩

/-- `TaskService.get_all_tasks` (`tasks.py` lines 58-89), translated
statement by statement: read the cache (`_get_cached_data`); if the raw
value is truthy, `_parse_cached_data` it; if the parsed value is truthy,
return it in a 200 envelope; otherwise fall through to the Excel source
with best-effort write-back. -/
def get_all_tasks (b : RedisBehavior) (s : SysState) : CallResult :=
  match get_cached_data b s.cache with
  | some cell =>
    if cell.nonEmpty then
      match parse_cached_data b s.cache cell with
      | (some v, cache1) =>
        if v.truthy then
          ⟨.ok { status := 200
                 details := "Данные получены из кеша."
                 data := v },
           cache1, 0⟩
        else
          sourceFallback b cache1 s.file
      | (none, cache1) => sourceFallback b cache1 s.file
    else
      sourceFallback b s.cache s.file
  | none => sourceFallback b s.cache s.file

end TaskService

/-- Classifier for the "formatting error" failure of `parse_shop`: a 400
`HTTPException`. -/
def isMalformedErr : Except PyError ParseTasksResponse → Bool
  | .error (.http 400 _) => true
  | _ => false

/-- Classifier for the typed `SheetNotFound` failure of `parse_shop`: a
404 `HTTPException`. -/
def isSheetNotFound : Except PyError ParseTasksResponse → Bool
  | .error (.http 404 _) => true
  | _ => false

/-- The three-row sample sheet of the spec's worked example. -/
def sampleDf : DataFrame :=
  ⟨["name", "price"],
   [[.str "A", .num 10], [.str "B", .num 20], [.str "C", .num 30]]⟩

/-- The default workbook `PlayIT.xlsx` carrying the sample sheet. -/
def sampleFile : ExcelFile := ⟨"PlayIT.xlsx", some sampleDf⟩

/-- A Redis behaviour in which every store call succeeds. -/
def redisOk : RedisBehavior := ⟨false, false, false⟩

/-! ## Helper lemmas -/

theorem records_isEmpty (df : DataFrame) :
    df.records.isEmpty = df.rows.isEmpty := by
  cases h : df.rows <;> simp [DataFrame.records, h]

theorem rows_nonempty_of_not_emptyDf (df : DataFrame)
    (h : df.emptyDf = false) : df.rows.isEmpty = false := by
  unfold DataFrame.emptyDf at h
  exact (Bool.or_eq_false_iff.mp h).1

theorem parse_shop_success (file : ExcelFile) (df : DataFrame)
    (hpath : pyEndsWith file.path ".xlsx" = true)
    (hsheet : file.sheet = some df)
    (hne : df.emptyDf = false) :
    ExcelService.parse_shop file
      = .ok ⟨200, "Данные получены напрямую из Excel файла.", .arr df.records⟩ := by
  have hrec : df.records.isEmpty = false :=
    (records_isEmpty df).trans (rows_nonempty_of_not_emptyDf df hne)
  unfold ExcelService.parse_shop
  rw [hsheet]
  simp [hpath, hne, hrec]

theorem parse_shop_ok_shape (file : ExcelFile) (r : ParseTasksResponse)
    (h : ExcelService.parse_shop file = .ok r) :
    r.status = 200 ∧ r.details = "Данные получены напрямую из Excel файла." := by
  unfold ExcelService.parse_shop at h
  split at h
  · exact Except.noConfusion h
  · split at h
    · exact Except.noConfusion h
    · split at h
      · exact Except.noConfusion h
      · dsimp only at h
        split at h
        · exact Except.noConfusion h
        · cases h
          exact ⟨rfl, rfl⟩

theorem sourceFallback_ok (b : RedisBehavior) (cache : Option CacheCell)
    (file : ExcelFile) (r : ParseTasksResponse)
    (h : ExcelService.parse_shop file = .ok r) :
    TaskService.sourceFallback b cache file
      = ⟨.ok r, TaskService.cache_response b cache r, 1⟩ := by
  simp [TaskService.sourceFallback, h]

theorem sourceFallback_error (b : RedisBehavior) (cache : Option CacheCell)
    (file : ExcelFile) (e : PyError)
    (h : ExcelService.parse_shop file = .error e) :
    TaskService.sourceFallback b cache file = ⟨.error e, cache, 1⟩ := by
  simp [TaskService.sourceFallback, h]

theorem sourceFallback_calls (b : RedisBehavior) (cache : Option CacheCell)
    (file : ExcelFile) :
    (TaskService.sourceFallback b cache file).parseShopCalls = 1 := by
  unfold TaskService.sourceFallback
  cases ExcelService.parse_shop file <;> rfl

theorem sourceFallback_result_error (b : RedisBehavior)
    (cache : Option CacheCell) (file : ExcelFile) (e : PyError)
    (h : (TaskService.sourceFallback b cache file).result = .error e) :
    ExcelService.parse_shop file = .error e
      ∧ (TaskService.sourceFallback b cache file).cache = cache := by
  unfold TaskService.sourceFallback at *
  cases hp : ExcelService.parse_shop file <;> rw [hp] at h <;> simp_all

theorem sourceFallback_result_ok (b : RedisBehavior)
    (cache : Option CacheCell) (file : ExcelFile) (r : ParseTasksResponse)
    (h : ExcelService.parse_shop file = .ok r) :
    (TaskService.sourceFallback b cache file).result = .ok r := by
  rw [sourceFallback_ok b cache file r h]

theorem get_all_tasks_getFails (b : RedisBehavior) (s : SysState)
    (h : b.getFails = true) :
    TaskService.get_all_tasks b s
      = TaskService.sourceFallback b s.cache s.file := by
  simp [TaskService.get_all_tasks, TaskService.get_cached_data, h]

theorem get_all_tasks_missing (b : RedisBehavior) (s : SysState)
    (h : s.cache = none) :
    TaskService.get_all_tasks b s
      = TaskService.sourceFallback b s.cache s.file := by
  cases hb : b.getFails <;>
    simp [TaskService.get_all_tasks, TaskService.get_cached_data, h, hb]

theorem get_all_tasks_good (b : RedisBehavior) (s : SysState) (v : JVal)
    (hget : b.getFails = false) (hc : s.cache = some (.good v)) :
    TaskService.get_all_tasks b s
      = if v.truthy then
          ⟨.ok ⟨200, "Данные получены из кеша.", v⟩, s.cache, 0⟩
        else TaskService.sourceFallback b s.cache s.file := by
  simp [TaskService.get_all_tasks, TaskService.get_cached_data, hget, hc,
        CacheCell.nonEmpty, TaskService.parse_cached_data]

theorem get_all_tasks_corrupt (b : RedisBehavior) (s : SysState)
    (raw : String) (hget : b.getFails = false)
    (hc : s.cache = some (.corrupt raw)) (hraw : raw.isEmpty = false) :
    TaskService.get_all_tasks b s
      = TaskService.sourceFallback b
          (if b.deleteFails then s.cache else none) s.file := by
  simp [TaskService.get_all_tasks, TaskService.get_cached_data, hget, hc,
        CacheCell.nonEmpty, hraw, TaskService.parse_cached_data]

theorem get_all_tasks_empty_corrupt (b : RedisBehavior) (s : SysState)
    (raw : String) (hget : b.getFails = false)
    (hc : s.cache = some (.corrupt raw)) (hraw : raw.isEmpty = true) :
    TaskService.get_all_tasks b s
      = TaskService.sourceFallback b s.cache s.file := by
  simp [TaskService.get_all_tasks, TaskService.get_cached_data, hget, hc,
        CacheCell.nonEmpty, hraw]

/-! ## Claims -/

/-- C1 (counterexample): the value `[]` at the cache key is non-empty and
deserializes successfully, yet `get_all_tasks` does not return it from the
cache: it invokes `parse_shop` once and returns the Excel-path envelope,
because the code guards the cache hit with Python truthiness of the parsed
value, not with deserialization success alone. -/
theorem c1_falsy_hit_counterexample :
    CacheCell.nonEmpty (.good (.arr [])) = true
    ∧ (TaskService.get_all_tasks redisOk
        ⟨some (.good (.arr [])), sampleFile⟩).parseShopCalls = 1
    ∧ (TaskService.get_all_tasks redisOk
        ⟨some (.good (.arr [])), sampleFile⟩).result
      = .ok ⟨200, "Данные получены напрямую из Excel файла.",
             .arr sampleDf.records⟩ :=
  ⟨rfl, rfl, rfl⟩

/-- C1 (amended): whenever the cache get succeeds and the key holds a
value that deserializes successfully to a *truthy* value, `get_all_tasks`
returns immediately with status 200, the cache-path detail, and the
deserialized value as payload; the Source Reader is never invoked and the
cache entry is untouched. -/
theorem c1_cache_hit (b : RedisBehavior) (s : SysState) (v : JVal)
    (hget : b.getFails = false) (hc : s.cache = some (.good v))
    (ht : v.truthy = true) :
    TaskService.get_all_tasks b s
      = ⟨.ok ⟨200, "Данные получены из кеша.", v⟩, s.cache, 0⟩ := by
  rw [get_all_tasks_good b s v hget hc, ht]
  simp

/-- C1 witness: the amended fast path at a concrete warm cache. -/
theorem c1_cache_hit_witness :
    TaskService.get_all_tasks redisOk
        ⟨some (.good (.arr [.num 1])), sampleFile⟩
      = ⟨.ok ⟨200, "Данные получены из кеша.", .arr [.num 1]⟩,
         some (.good (.arr [.num 1])), 0⟩ :=
  c1_cache_hit redisOk ⟨some (.good (.arr [.num 1])), sampleFile⟩
    (.arr [.num 1]) rfl rfl rfl

/-- C2: when the Redis get raises, `get_all_tasks` treats it as a cache
miss: the Source Reader runs exactly once, a successful source parse is
returned unchanged, and any error in the result is a source error — no
store-level error reaches the caller. -/
theorem c2_store_error_is_miss (b : RedisBehavior) (s : SysState)
    (hget : b.getFails = true) :
    (TaskService.get_all_tasks b s).parseShopCalls = 1
    ∧ (∀ r, ExcelService.parse_shop s.file = Except.ok r →
        (TaskService.get_all_tasks b s).result = Except.ok r)
    ∧ (∀ e, (TaskService.get_all_tasks b s).result = Except.error e →
        ExcelService.parse_shop s.file = Except.error e) := by
  rw [get_all_tasks_getFails b s hget]
  refine ⟨sourceFallback_calls b s.cache s.file, ?_, ?_⟩
  · exact fun r hr => sourceFallback_result_ok b s.cache s.file r hr
  · exact fun e he => (sourceFallback_result_error b s.cache s.file e he).1

/-- C2 witness: an unreachable store with a (stale) warm cache still
yields the source envelope. -/
theorem c2_store_error_witness :
    (TaskService.get_all_tasks ⟨true, false, false⟩
      ⟨some (.good (.arr [.num 1])), sampleFile⟩).result
      = Except.ok ⟨200, "Данные получены напрямую из Excel файла.",
                   .arr sampleDf.records⟩ :=
  (c2_store_error_is_miss ⟨true, false, false⟩
      ⟨some (.good (.arr [.num 1])), sampleFile⟩ rfl).2.1
    ⟨200, "Данные получены напрямую из Excel файла.", .arr sampleDf.records⟩
    (parse_shop_success sampleFile sampleDf rfl rfl rfl)

/-- C3: with a non-empty corrupt value at the cache key, `get_all_tasks`
(a) best-effort deletes the key (observable: with a working delete and a
failing set, the key ends up absent; a delete failure never changes the
returned result, which stays determined by the source parse), (b) falls
back to the Source Reader exactly once, (c) returns the source envelope on
a successful parse, and (d) when the write-back succeeds, leaves the fresh
serialized payload at the key. -/
theorem c3_corruption_recovery (b : RedisBehavior) (s : SysState)
    (raw : String) (hget : b.getFails = false)
    (hc : s.cache = some (.corrupt raw)) (hraw : raw.isEmpty = false) :
    (TaskService.get_all_tasks b s).parseShopCalls = 1
    ∧ (∀ r, ExcelService.parse_shop s.file = Except.ok r →
        (TaskService.get_all_tasks b s).result = Except.ok r)
    ∧ (b.deleteFails = false → b.setFails = true →
        (TaskService.get_all_tasks b s).cache = none)
    ∧ (∀ r, b.setFails = false → ExcelService.parse_shop s.file = Except.ok r →
        (TaskService.get_all_tasks b s).cache = some (.good r.data)) := by
  rw [get_all_tasks_corrupt b s raw hget hc hraw]
  refine ⟨sourceFallback_calls b _ s.file, ?_, ?_, ?_⟩
  · exact fun r hr => sourceFallback_result_ok b _ s.file r hr
  · intro hdel hset
    cases hp : ExcelService.parse_shop s.file with
    | error e => rw [sourceFallback_error b _ s.file e hp]; simp [hdel]
    | ok r =>
      rw [sourceFallback_ok b _ s.file r hp]
      simp [TaskService.cache_response, hdel, hset]
  · intro r hset hp
    rw [sourceFallback_ok b _ s.file r hp]
    simp [TaskService.cache_response, hset]

/-- C3 witness: corrupt bytes at the key, all store calls working: the
call returns the source envelope and re-populates the key. -/
theorem c3_corruption_recovery_witness :
    (TaskService.get_all_tasks redisOk
      ⟨some (.corrupt "oops not json"), sampleFile⟩).cache
      = some (.good (.arr sampleDf.records)) :=
  (c3_corruption_recovery redisOk
      ⟨some (.corrupt "oops not json"), sampleFile⟩ "oops not json"
      rfl rfl rfl).2.2.2
    ⟨200, "Данные получены напрямую из Excel файла.", .arr sampleDf.records⟩
    rfl (parse_shop_success sampleFile sampleDf rfl rfl rfl)

/-- C4: the write-back outcome never alters the returned envelope: after
any source fallback with a successful parse, the result is exactly the
parsed envelope, for every set/serialize outcome; in particular on a cache
miss `get_all_tasks` returns the source envelope unchanged whether or not
the write-back fails. -/
theorem c4_writeback_frame (b : RedisBehavior) (cache : Option CacheCell)
    (file : ExcelFile) (s : SysState) (r : ParseTasksResponse) :
    (ExcelService.parse_shop file = Except.ok r →
      (TaskService.sourceFallback b cache file).result = Except.ok r)
    ∧ (s.cache = none → ExcelService.parse_shop s.file = Except.ok r →
      (TaskService.get_all_tasks b s).result = Except.ok r) := by
  constructor
  · exact fun h => sourceFallback_result_ok b cache file r h
  · intro hc hp
    rw [get_all_tasks_missing b s hc]
    exact sourceFallback_result_ok b s.cache s.file r hp

/-- C4 witness: with a failing Redis set, a cold read still returns the
source envelope unchanged. -/
theorem c4_writeback_frame_witness :
    (TaskService.get_all_tasks ⟨false, false, true⟩
      ⟨none, sampleFile⟩).result
      = Except.ok ⟨200, "Данные получены напрямую из Excel файла.",
                   .arr sampleDf.records⟩ :=
  (c4_writeback_frame ⟨false, false, true⟩ none sampleFile
      ⟨none, sampleFile⟩
      ⟨200, "Данные получены напрямую из Excel файла.", .arr sampleDf.records⟩).2
    rfl (parse_shop_success sampleFile sampleDf rfl rfl rfl)

/-- C5: starting from an empty cache over a valid non-empty source, with
the first call's write-back and the second call's get succeeding, the cold
call returns the source envelope and parses the sheet once, and the warm
call returns the same payload from the cache without invoking the Source
Reader. -/
theorem c5_two_calls_idempotent (b1 b2 : RedisBehavior) (s : SysState)
    (df : DataFrame)
    (hpath : pyEndsWith s.file.path ".xlsx" = true)
    (hsheet : s.file.sheet = some df)
    (hne : df.emptyDf = false)
    (hcold : s.cache = none)
    (hset : b1.setFails = false)
    (hget2 : b2.getFails = false) :
    (TaskService.get_all_tasks b1 s).result
      = Except.ok ⟨200, "Данные получены напрямую из Excel файла.",
                   .arr df.records⟩
    ∧ (TaskService.get_all_tasks b1 s).parseShopCalls = 1
    ∧ (TaskService.get_all_tasks b2
        ⟨(TaskService.get_all_tasks b1 s).cache, s.file⟩).result
      = Except.ok ⟨200, "Данные получены из кеша.", .arr df.records⟩
    ∧ (TaskService.get_all_tasks b2
        ⟨(TaskService.get_all_tasks b1 s).cache, s.file⟩).parseShopCalls
      = 0 := by
  have hp : ExcelService.parse_shop s.file
      = Except.ok ⟨200, "Данные получены напрямую из Excel файла.",
                   .arr df.records⟩ :=
    parse_shop_success s.file df hpath hsheet hne
  have h1 : TaskService.get_all_tasks b1 s
      = ⟨Except.ok ⟨200, "Данные получены напрямую из Excel файла.",
                    .arr df.records⟩,
         some (.good (.arr df.records)), 1⟩ := by
    rw [get_all_tasks_missing b1 s hcold, sourceFallback_ok b1 s.cache s.file _ hp]
    simp [TaskService.cache_response, hset]
  have htr : JVal.truthy (.arr df.records) = true := by
    simp [JVal.truthy, records_isEmpty df, rows_nonempty_of_not_emptyDf df hne]
  have h2 : TaskService.get_all_tasks b2
      ⟨(TaskService.get_all_tasks b1 s).cache, s.file⟩
      = ⟨Except.ok ⟨200, "Данные получены из кеша.", .arr df.records⟩,
         some (.good (.arr df.records)), 0⟩ := by
    rw [h1]
    rw [get_all_tasks_good b2 _ (.arr df.records) hget2 rfl, htr]
    simp
  rw [h2, h1]
  exact ⟨rfl, rfl, rfl, rfl⟩

/-- C5 witness: the two-call scenario on the spec's sample sheet with a
fully working store. -/
theorem c5_two_calls_witness :
    (TaskService.get_all_tasks redisOk ⟨none, sampleFile⟩).parseShopCalls = 1
    ∧ (TaskService.get_all_tasks redisOk
        ⟨(TaskService.get_all_tasks redisOk ⟨none, sampleFile⟩).cache,
         sampleFile⟩).parseShopCalls = 0 :=
  ⟨(c5_two_calls_idempotent redisOk redisOk ⟨none, sampleFile⟩ sampleDf
      rfl rfl rfl rfl rfl rfl).2.1,
   (c5_two_calls_idempotent redisOk redisOk ⟨none, sampleFile⟩ sampleDf
      rfl rfl rfl rfl rfl rfl).2.2.2⟩

/-- C6 (code evaluated at the failing input): the Python extension check
`file_path.endswith(".xlsx" or ".xls")` tests only the `".xlsx"` suffix,
so a `.xls` workbook — which the spec lists as accepted — is rejected with
the 422 error, while `.xlsx` passes and `.csv` is rejected. -/
theorem c6_xls_rejected :
    pyEndsWith "PlayIT.xls" ".xlsx" = false
    ∧ ExcelService.parse_shop ⟨"PlayIT.xls", some sampleDf⟩
      = Except.error (.http 422 "Unprocessable content")
    ∧ ExcelService.parse_shop ⟨"PlayIT.xlsx", some sampleDf⟩
      = Except.ok ⟨200, "Данные получены напрямую из Excel файла.",
                   .arr sampleDf.records⟩
    ∧ ExcelService.parse_shop ⟨"PlayIT.csv", some sampleDf⟩
      = Except.error (.http 422 "Unprocessable content") :=
  ⟨rfl, rfl, rfl, rfl⟩

/-- C7 (counterexample): with the sheet "Персонажи" absent from the
workbook, the failing call surfaces the pandas `ValueError`, not the typed
404 `SheetNotFound` error the claim names. -/
theorem c7_absent_sheet_counterexample :
    (TaskService.get_all_tasks redisOk
      ⟨none, ⟨"PlayIT.xlsx", none⟩⟩).result
      = Except.error (.pandasValueError pandasSheetMissingMsg)
    ∧ isSheetNotFound
        (TaskService.get_all_tasks redisOk
          ⟨none, ⟨"PlayIT.xlsx", none⟩⟩).result = false :=
  ⟨rfl, rfl⟩

/-- C7 (amended): an empty named sheet yields the typed 404; an absent
named sheet makes the sheet reader's own error propagate instead; either
source error propagates unchanged through a cold `get_all_tasks` call with
the cache left as it was; and in general a failed call never stores a
value — the cache afterwards is either unchanged or (after corruption
recovery) cleared. -/
theorem c7_sheet_failures (b : RedisBehavior) (s : SysState)
    (hpath : pyEndsWith s.file.path ".xlsx" = true) :
    (s.file.sheet = none →
      ExcelService.parse_shop s.file
        = Except.error (.pandasValueError pandasSheetMissingMsg))
    ∧ (∀ df, s.file.sheet = some df → df.emptyDf = true →
      ExcelService.parse_shop s.file
        = Except.error (.http 404 "Такой таблицы не существует"))
    ∧ (∀ e, s.cache = none → ExcelService.parse_shop s.file = Except.error e →
      (TaskService.get_all_tasks b s).result = Except.error e
        ∧ (TaskService.get_all_tasks b s).cache = s.cache)
    ∧ (∀ e, (TaskService.get_all_tasks b s).result = Except.error e →
      (TaskService.get_all_tasks b s).cache = s.cache
        ∨ (TaskService.get_all_tasks b s).cache = none) := by
  refine ⟨?_, ?_, ?_, ?_⟩
  · intro hs
    unfold ExcelService.parse_shop
    rw [hs]
    simp [hpath]
  · intro df hs hemp
    unfold ExcelService.parse_shop
    rw [hs]
    simp [hpath, hemp]
  · intro e hc hp
    rw [get_all_tasks_missing b s hc, sourceFallback_error b s.cache s.file e hp]
    exact ⟨rfl, rfl⟩
  · intro e he
    cases hb : b.getFails with
    | true =>
      rw [get_all_tasks_getFails b s hb] at he ⊢
      exact .inl (sourceFallback_result_error b s.cache s.file e he).2
    | false =>
      cases hc : s.cache with
      | none =>
        rw [get_all_tasks_missing b s hc] at he ⊢
        exact .inl ((sourceFallback_result_error b s.cache s.file e he).2.trans hc)
      | some cell =>
        cases cell with
        | good v =>
          by_cases ht : v.truthy = true
          · rw [get_all_tasks_good b s v hb hc, if_pos ht] at he
            exact Except.noConfusion he
          · have h2 : TaskService.get_all_tasks b s
                = TaskService.sourceFallback b s.cache s.file := by
              rw [get_all_tasks_good b s v hb hc, if_neg ht]
            rw [h2] at he ⊢
            exact .inl
              ((sourceFallback_result_error b s.cache s.file e he).2.trans hc)
        | corrupt raw =>
          cases hraw : raw.isEmpty with
          | true =>
            rw [get_all_tasks_empty_corrupt b s raw hb hc hraw] at he ⊢
            exact .inl
              ((sourceFallback_result_error b s.cache s.file e he).2.trans hc)
          | false =>
            cases hd : b.deleteFails with
            | true =>
              have h2 : TaskService.get_all_tasks b s
                  = TaskService.sourceFallback b s.cache s.file := by
                rw [get_all_tasks_corrupt b s raw hb hc hraw, hd]
                simp
              rw [h2] at he ⊢
              exact .inl
                ((sourceFallback_result_error b s.cache s.file e he).2.trans hc)
            | false =>
              have h2 : TaskService.get_all_tasks b s
                  = TaskService.sourceFallback b none s.file := by
                rw [get_all_tasks_corrupt b s raw hb hc hraw, hd]
                simp
              rw [h2] at he ⊢
              exact .inr (sourceFallback_result_error b none s.file e he).2

/-- C7 witness: the empty-sheet 404 and the cold-call propagation with an
unchanged cache, at concrete inputs. -/
theorem c7_sheet_failures_witness :
    ExcelService.parse_shop ⟨"PlayIT.xlsx", some ⟨[], []⟩⟩
      = Except.error (.http 404 "Такой таблицы не существует")
    ∧ (TaskService.get_all_tasks redisOk
        ⟨none, ⟨"PlayIT.xlsx", some ⟨[], []⟩⟩⟩).cache = none :=
  ⟨(c7_sheet_failures redisOk ⟨none, ⟨"PlayIT.xlsx", some ⟨[], []⟩⟩⟩
      rfl).2.1 ⟨[], []⟩ rfl rfl,
   ((c7_sheet_failures redisOk ⟨none, ⟨"PlayIT.xlsx", some ⟨[], []⟩⟩⟩
      rfl).2.2.1 (.http 404 "Такой таблицы не существует") rfl
      ((c7_sheet_failures redisOk ⟨none, ⟨"PlayIT.xlsx", some ⟨[], []⟩⟩⟩
        rfl).2.1 ⟨[], []⟩ rfl rfl)).2⟩

/-- C8: on a valid `.xlsx` source whose named sheet is non-empty,
`parse_shop` succeeds with status 200, the source-path detail string, and
one record per sheet row (row count preserved). -/
theorem c8_source_success (file : ExcelFile) (df : DataFrame)
    (hpath : pyEndsWith file.path ".xlsx" = true)
    (hsheet : file.sheet = some df)
    (hne : df.emptyDf = false) :
    ExcelService.parse_shop file
      = Except.ok ⟨200, "Данные получены напрямую из Excel файла.",
                   .arr df.records⟩
    ∧ df.records.length = df.rows.length :=
  ⟨parse_shop_success file df hpath hsheet hne,
   List.length_map df.rows _⟩

/-- C8 witness: the spec's three-row example parses to three records. -/
theorem c8_source_success_witness :
    ExcelService.parse_shop sampleFile
      = Except.ok ⟨200, "Данные получены напрямую из Excel файла.",
                   .arr sampleDf.records⟩
    ∧ sampleDf.records.length = sampleDf.rows.length :=
  c8_source_success sampleFile sampleDf rfl rfl rfl

/-- C9: a cached value that deserializes successfully to a falsy value is
not returned from the cache (every successful result carries the
source-path detail), the key is not deleted (a source failure leaves the
cache exactly as it was), the Source Reader runs once, and a successful
parse with a working set overwrites the entry. -/
theorem c9_falsy_cached_value (b : RedisBehavior) (s : SysState) (v : JVal)
    (hget : b.getFails = false) (hc : s.cache = some (.good v))
    (ht : v.truthy = false) :
    (TaskService.get_all_tasks b s).parseShopCalls = 1
    ∧ (∀ r, (TaskService.get_all_tasks b s).result = Except.ok r →
        r.details = "Данные получены напрямую из Excel файла.")
    ∧ (∀ e, ExcelService.parse_shop s.file = Except.error e →
        (TaskService.get_all_tasks b s).cache = s.cache)
    ∧ (∀ r, b.setFails = false → ExcelService.parse_shop s.file = Except.ok r →
        (TaskService.get_all_tasks b s).cache = some (.good r.data)) := by
  have hred : TaskService.get_all_tasks b s
      = TaskService.sourceFallback b s.cache s.file := by
    rw [get_all_tasks_good b s v hget hc, if_neg (by simp [ht])]
  rw [hred]
  refine ⟨sourceFallback_calls b s.cache s.file, ?_, ?_, ?_⟩
  · intro r hr
    cases hp : ExcelService.parse_shop s.file with
    | error e =>
      rw [sourceFallback_error b s.cache s.file e hp] at hr
      exact Except.noConfusion hr
    | ok r0 =>
      rw [sourceFallback_ok b s.cache s.file r0 hp] at hr
      have h1 : r0 = r := Except.ok.inj hr
      exact h1 ▸ (parse_shop_ok_shape s.file r0 hp).2
  · intro e hp
    rw [sourceFallback_error b s.cache s.file e hp]
  · intro r hset hp
    rw [sourceFallback_ok b s.cache s.file r hp]
    simp [TaskService.cache_response, hset]

/-- C9 witness: a cached "[]" falls through to the source and is
overwritten by the write-back. -/
theorem c9_falsy_cached_value_witness :
    (TaskService.get_all_tasks redisOk
      ⟨some (.good (.arr [])), sampleFile⟩).cache
      = some (.good (.arr sampleDf.records)) :=
  (c9_falsy_cached_value redisOk ⟨some (.good (.arr [])), sampleFile⟩
      (.arr []) rfl rfl rfl).2.2.2
    ⟨200, "Данные получены напрямую из Excel файла.", .arr sampleDf.records⟩
    rfl (parse_shop_success sampleFile sampleDf rfl rfl rfl)

/-- C10: the 400 "formatting error" branch of `parse_shop` is unreachable:
whenever the sheet passes the non-emptiness check, the records list is
non-empty, so no input makes `parse_shop` return the 400 error. -/
theorem c10_malformed_unreachable (file : ExcelFile) :
    isMalformedErr (ExcelService.parse_shop file) = false := by
  unfold ExcelService.parse_shop
  split
  · rfl
  · split
    · rfl
    · next df heq =>
      split
      · rfl
      · next hemp =>
        dsimp only
        split
        · next hrec =>
          have : df.records.isEmpty = false :=
            (records_isEmpty df).trans
              (rows_nonempty_of_not_emptyDf df (by simpa using hemp))
          simp [this] at hrec
        · rfl
